import Mathlib

/-!
Shallow embedding of the survival-arena simulation in
src/components/GameArena.tsx of the weekly-english repository.
Numbers are modelled as exact rationals (JS floats idealized), frame
counters as naturals.  Each definition mirrors one source function.
-/

namespace WeeklyEnglish

/-- Mirrors the PlayerStats interface (types.ts) with the field types the
source arithmetic produces: frame counts and counters are integral, the
remaining numeric fields are rationals. -/
structure PlayerStats where
  hp : ℚ
  maxHp : ℚ
  speed : ℚ
  damage : ℚ
  attackSpeed : ℤ
  projectileSpeed : ℚ
  pickupRange : ℚ
  projectileCount : ℕ
  level : ℕ
  xp : ℕ
  xpToNextLevel : ℕ
deriving DecidableEq, Repr

/-- BASE_XP_REQUIREMENT constant (GameArena.tsx line 15). -/
def BASE_XP_REQUIREMENT : ℕ := 10

/-- Initial contents of statsRef (GameArena.tsx lines 62-70). -/
def initialStats : PlayerStats :=
  { hp := 100, maxHp := 100, speed := 4, damage := 10, attackSpeed := 30,
    projectileSpeed := 4, pickupRange := 120, projectileCount := 1,
    level := 1, xp := 0, xpToNextLevel := BASE_XP_REQUIREMENT }

/-- Identifiers of the six entries of the static UPGRADES pool
(GameArena.tsx lines 22-47). -/
inductive UpgradeId where
  | dmg_up
  | spd_up
  | atk_spd
  | hp_up
  | multishot
  | range_up
deriving DecidableEq, Repr

/-- The apply closure of each UPGRADES entry (GameArena.tsx lines 22-47):
dmg_up is Math.ceil(damage * 1.2), spd_up is speed * 1.1, atk_spd is
Math.max(5, Math.floor(attackSpeed * 0.85)), hp_up adds 30 to hp and
maxHp, multishot adds one projectile, range_up is pickupRange * 1.5. -/
def applyUpgradeOption : UpgradeId → PlayerStats → PlayerStats
  | .dmg_up, s => { s with damage := ((⌈s.damage * (6 / 5 : ℚ)⌉ : ℤ) : ℚ) }
  | .spd_up, s => { s with speed := s.speed * (11 / 10 : ℚ) }
  | .atk_spd, s =>
      { s with attackSpeed := max 5 ⌊(s.attackSpeed : ℚ) * (17 / 20 : ℚ)⌋ }
  | .hp_up, s => { s with maxHp := s.maxHp + 30, hp := s.hp + 30 }
  | .multishot, s => { s with projectileCount := s.projectileCount + 1 }
  | .range_up, s => { s with pickupRange := s.pickupRange * (3 / 2 : ℚ) }

/-- Stats part of applyUpgrade (GameArena.tsx lines 584-593): run the
chosen option's apply closure, then always grant one extra projectile,
increment the level, reset xp and raise the threshold by 2. -/
def applyUpgrade (opt : UpgradeId) (s : PlayerStats) : PlayerStats :=
  let s1 := applyUpgradeOption opt s
  { s1 with projectileCount := s1.projectileCount + 1,
            level := s1.level + 1,
            xp := 0,
            xpToNextLevel := s1.xpToNextLevel + 2 }

/-- Stats part of takeDamage (GameArena.tsx lines 543-546): hp is reduced
by the full amount with no clamping at zero. -/
def takeDamage (s : PlayerStats) (amount : ℚ) : PlayerStats :=
  { s with hp := s.hp - amount }

/-- Stats part of the incorrect branch of handleQuizResult (GameArena.tsx
lines 577-581): xp resets to 0 and the threshold grows by 2. -/
def quizFailStats (s : PlayerStats) : PlayerStats :=
  { s with xp := 0, xpToNextLevel := s.xpToNextLevel + 2 }

/-- Vocabulary record (types.ts WordData).  Only the word text matters to
the arena logic; the enrichment fields (definition, example sentence,
media) are carried around opaquely and are omitted here. -/
structure WordData where
  word : String
deriving DecidableEq, Repr

/-- The slice of mutable game state touched by the leveling pipeline:
statsRef, remainingWordsRef (array popped from its end), the quizWord
interstitial, the upgrade menu (the random draw of 3 options is abstracted
to the flag that the menu is shown), and isPausedRef. -/
structure LevelUpState where
  stats : PlayerStats
  remainingWords : List WordData
  quizWord : Option WordData
  showUpgrades : Bool
  paused : Bool
deriving DecidableEq, Repr

/-- showUpgradeMenu (GameArena.tsx lines 566-571): pauses and opens the
upgrade menu. -/
def showUpgradeMenu (g : LevelUpState) : LevelUpState :=
  { g with paused := true, showUpgrades := true }

/-- triggerLevelUp (GameArena.tsx lines 553-564): pause, then pop the last
remaining word and surface it as a quiz if any remain, otherwise show the
upgrade menu.  xp is NOT reset here. -/
def triggerLevelUp (g : LevelUpState) : LevelUpState :=
  let g1 : LevelUpState := { g with paused := true }
  match g1.remainingWords.getLast? with
  | some w =>
      { g1 with remainingWords := g1.remainingWords.dropLast, quizWord := some w }
  | none => showUpgradeMenu g1

/-- gainXp (GameArena.tsx lines 548-551): add the amount, and trigger a
level-up whenever the (unreset) xp is at or above the threshold. -/
def gainXp (g : LevelUpState) (amount : ℕ) : LevelUpState :=
  let stats1 : PlayerStats := { g.stats with xp := g.stats.xp + amount }
  let g1 : LevelUpState := { g with stats := stats1 }
  if stats1.xpToNextLevel ≤ stats1.xp then triggerLevelUp g1 else g1

/-- The xp-gem collection loop of update (GameArena.tsx lines 426-437):
each gem collected on one tick calls gainXp(1); n is the number of gems
collected that tick. -/
def collectGems (g : LevelUpState) : ℕ → LevelUpState
  | 0 => g
  | n + 1 => collectGems (gainXp g 1) n

/-- handleQuizResult (GameArena.tsx lines 573-582): clear the quiz; on a
correct answer open the upgrade menu, otherwise reset xp, raise the
threshold by 2 and resume. -/
def handleQuizResult (g : LevelUpState) (correct : Bool) : LevelUpState :=
  let g1 : LevelUpState := { g with quizWord := none }
  if correct then showUpgradeMenu g1
  else { g1 with stats := quizFailStats g1.stats, paused := false }

/-- SPAWN_RATE_INITIAL constant (GameArena.tsx line 14). -/
def SPAWN_RATE_INITIAL : ℕ := 100

/-- Spawn interval in ticks (GameArena.tsx line 450):
Math.max(20, SPAWN_RATE_INITIAL - Math.floor(time / 2)).  Natural
subtraction truncates at 0, which the outer max 20 makes equivalent to the
source's signed arithmetic. -/
def spawnRate (time : ℕ) : ℕ := max 20 (SPAWN_RATE_INITIAL - time / 2)

/-- The slice of state read and written by spawnEnemies: gameTimeRef,
frameCountRef, remainingWordsRef, bossSpawnedRef, the quizWord state
captured by the closure, and statsRef.current.level. -/
structure SpawnState where
  gameTime : ℕ
  frameCount : ℕ
  remainingWords : List WordData
  bossSpawned : Bool
  quizWord : Option WordData
  level : ℕ
deriving DecidableEq, Repr

/-- What one spawnEnemies invocation creates. -/
inductive SpawnKind where
  | noSpawn
  | boss
  | mob
  | elite
deriving DecidableEq, Repr

/-- spawnEnemies (GameArena.tsx lines 448-468).  The boss guard is checked
first, before the spawn-interval check, and returns early; r is the
Math.random() roll used for the MOB/ELITE choice, and the two sequential
ELITE promotions (canSpawnElite with time over 30 and roll over 0.9, or
time over 60 and roll over 0.8) are written as one disjunction with
canSpawnElite inlined. -/
def spawnTick (st : SpawnState) (r : ℚ) : SpawnKind × SpawnState :=
  if st.remainingWords.length = 0 ∧ st.bossSpawned = false ∧ st.quizWord = none then
    (.boss, { st with bossSpawned := true })
  else if st.frameCount % spawnRate st.gameTime = 0 then
    if (1 < st.level ∧ 30 < st.gameTime ∧ (9 : ℚ) / 10 < r) ∨
       (1 < st.level ∧ 60 < st.gameTime ∧ (8 : ℚ) / 10 < r) then
      (.elite, st)
    else
      (.mob, st)
  else
    (.noSpawn, st)

/-- Per-tick environment for a spawn run: everything spawnEnemies reads
other than the boss flag may change arbitrarily between ticks (frames
advance, words are consumed by quizzes, a quiz opens or closes); only
bossSpawnedRef is owned by the spawner and threaded through. -/
structure EnvInput where
  gameTime : ℕ
  frameCount : ℕ
  remainingWords : List WordData
  quizWord : Option WordData
  level : ℕ
  roll : ℚ
deriving DecidableEq, Repr

/-- Install one tick's environment around the threaded boss flag. -/
def envUpdate (st : SpawnState) (e : EnvInput) : SpawnState :=
  { gameTime := e.gameTime, frameCount := e.frameCount,
    remainingWords := e.remainingWords, bossSpawned := st.bossSpawned,
    quizWord := e.quizWord, level := e.level }

/-- Number of BOSS entities created over a run of spawnEnemies ticks. -/
def runBossSpawns : SpawnState → List EnvInput → ℕ
  | _, [] => 0
  | st, e :: rest =>
      let step := spawnTick (envUpdate st e) e.roll
      (if step.1 = SpawnKind.boss then 1 else 0) + runBossSpawns step.2 rest

/-- killCountsRef (GameArena.tsx line 90). -/
structure KillCounts where
  mobs : ℕ
  elites : ℕ
  bosses : ℕ
deriving DecidableEq, Repr

/-- Initial kill counters. -/
def initialKills : KillCounts := { mobs := 0, elites := 0, bosses := 0 }

/-- gameResult states (GameArena.tsx line 103). -/
inductive GameResult where
  | PLAYING
  | DEFEAT
  | VICTORY
deriving DecidableEq, Repr

/-- calculateScore (GameArena.tsx lines 442-446). -/
def calculateScore (k : KillCounts) : ℕ :=
  k.mobs * 1 + k.elites * 10 + k.bosses * 100

/-- Entity type union (types.ts). -/
inductive EnemyType where
  | HERO
  | MOB
  | ELITE
  | ELITE_RANGED
  | BOSS
  | XP
  | PROJECTILE
  | ENEMY_PROJECTILE
deriving DecidableEq, Repr

/-- e.type.includes('ELITE') of the kill filter: true for ELITE and
ELITE_RANGED. -/
def isEliteType : EnemyType → Bool
  | .ELITE => true
  | .ELITE_RANGED => true
  | _ => false

/-- One dead enemy processed by the death filter (GameArena.tsx lines
403-424): BOSS increments bosses and sets VICTORY; ELITE-like increments
elites; anything else increments mobs. -/
def registerKill (k : KillCounts) (res : GameResult) (t : EnemyType) :
    KillCounts × GameResult :=
  if t = .BOSS then ({ k with bosses := k.bosses + 1 }, .VICTORY)
  else if isEliteType t then ({ k with elites := k.elites + 1 }, res)
  else ({ k with mobs := k.mobs + 1 }, res)

/-- Fold the death filter over a session's sequence of kills. -/
def processKills : KillCounts × GameResult → List EnemyType → KillCounts × GameResult
  | acc, [] => acc
  | (k, res), t :: ts => processKills (registerKill k res t) ts

/-- Positioned actor (types.ts Entity) restricted to the numeric fields
the collision logic reads; id and sprite fields are render bookkeeping
and are omitted. -/
structure Entity where
  x : ℚ
  y : ℚ
  width : ℚ
  height : ℚ
  etype : EnemyType
  vx : ℚ
  vy : ℚ
  hp : ℚ
  maxHp : ℚ
  damage : ℚ
deriving DecidableEq, Repr

/-- Squared center-to-center distance.  Math.hypot(a, b) < r is equivalent
to a^2 + b^2 < r^2 whenever r is nonnegative, which lets the comparisons
below stay in exact rational arithmetic. -/
def distSq (x1 y1 x2 y2 : ℚ) : ℚ := (x1 - x2) ^ 2 + (y1 - y2) ^ 2

/-- Projectile collision test of the filter at GameArena.tsx lines
386 and 394: Math.hypot(p.x - t.x, p.y - t.y) < t.width / 2 + 15. -/
def projHitsTarget (px py : ℚ) (t : Entity) : Bool :=
  decide (distSq px py t.x t.y < (t.width / 2 + 15) ^ 2)

/-- The enemy the for-loop at GameArena.tsx lines 385-392 stops at: the
first enemy in array order inside the collision radius. -/
def findHitEnemy (p : Entity) (enemies : List Entity) : Option Entity :=
  enemies.find? (fun e => projHitsTarget p.x p.y e)

/-- Effect of that for-loop on the enemy array: subtract the projectile's
damage from the first enemy in radius and break. -/
def damageFirstHit (p : Entity) : List Entity → List Entity
  | [] => []
  | e :: rest =>
      if projHitsTarget p.x p.y e then { e with hp := e.hp - p.damage } :: rest
      else e :: damageFirstHit p rest

/-- Per-projectile position integration of the filter (line 382). -/
def moveProj (p : Entity) : Entity := { p with x := p.x + p.vx, y := p.y + p.vy }

/-- Collision branch of the projectile filter (GameArena.tsx lines
383-398): player projectiles scan the enemy array and damage the first
enemy in radius; any other projectile is tested against the player only.
Returns the updated enemy list, the damage dealt to the player, and the
hit flag that removes the projectile. -/
def projectileCollide (p : Entity) (player : Entity) (enemies : List Entity) :
    List Entity × ℚ × Bool :=
  if p.etype = .PROJECTILE then
    match findHitEnemy p enemies with
    | some _ => (damageFirstHit p enemies, 0, true)
    | none => (enemies, 0, false)
  else
    if projHitsTarget p.x p.y player then (enemies, p.damage, true)
    else (enemies, 0, false)

/-- Contact-damage cooldown modulus (GameArena.tsx line 375). -/
def CONTACT_COOLDOWN : ℕ := 30

/-- Bounding-circle overlap test of GameArena.tsx lines 373-374:
Math.hypot(player.x - enemy.x, player.y - enemy.y) <
player.width / 2 + enemy.width / 2, in squared form. -/
def circlesOverlap (player enemy : Entity) : Bool :=
  decide (distSq player.x player.y enemy.x enemy.y <
    (player.width / 2 + enemy.width / 2) ^ 2)

/-- Melee contact-damage condition of GameArena.tsx lines 373-376: damage
fires on a tick exactly when the circles overlap and the global frame
counter is a multiple of the cooldown. -/
def contactDamageFires (frame : ℕ) (player enemy : Entity) : Bool :=
  circlesOverlap player enemy && decide (frame % CONTACT_COOLDOWN = 0)

/-- Math.sqrt(dx * dx + dy * dy) of GameArena.tsx line 337, over the
reals. -/
noncomputable def inputLength (dx dy : ℝ) : ℝ := Real.sqrt (dx * dx + dy * dy)

/-- normalizedFactor of GameArena.tsx line 338:
length > 1 ? 1 / length : 1. -/
noncomputable def normalizedFactor (dx dy : ℝ) : ℝ :=
  if 1 < inputLength dx dy then 1 / inputLength dx dy else 1

/-- Horizontal displacement added to player.x (GameArena.tsx line 339). -/
noncomputable def stepDisplacementX (dx dy speed : ℝ) : ℝ :=
  dx * normalizedFactor dx dy * speed

/-- Vertical displacement added to player.y (GameArena.tsx line 340). -/
noncomputable def stepDisplacementY (dx dy speed : ℝ) : ℝ :=
  dy * normalizedFactor dx dy * speed

/-- Euclidean magnitude of the per-tick displacement. -/
noncomputable def displacementMagnitude (dx dy speed : ℝ) : ℝ :=
  Real.sqrt (stepDisplacementX dx dy speed ^ 2 + stepDisplacementY dx dy speed ^ 2)

/-- Damage amounts that ever reach takeDamage during play: MOB contact 1,
ELITE contact and ELITE_RANGED bullet 5, BOSS contact and BOSS bullet 10
(GameArena.tsx lines 375, 395, 486, 491, 493, 528, 538). -/
def enemyDamageValues : List ℚ := [1, 5, 10]

/-- One mutation of statsRef during play (GameArena.tsx): an enemy hit via
takeDamage (the source calls it unguarded, so on the dying tick further
hits may land even at hp at or below zero), an upgrade application, a
failed quiz, or collecting one xp gem. -/
inductive StatsStep : PlayerStats → PlayerStats → Prop where
  | damage (s : PlayerStats) (d : ℚ) (hd : d ∈ enemyDamageValues) :
      StatsStep s (takeDamage s d)
  | upgrade (s : PlayerStats) (u : UpgradeId) : StatsStep s (applyUpgrade u s)
  | quizFail (s : PlayerStats) : StatsStep s (quizFailStats s)
  | xpGain (s : PlayerStats) : StatsStep s { s with xp := s.xp + 1 }

/-- Player stats reachable from the initial stats of a session. -/
inductive ReachableStats : PlayerStats → Prop where
  | init : ReachableStats initialStats
  | step {s t : PlayerStats} : ReachableStats s → StatsStep s t → ReachableStats t

/-- A lethal damage sequence: nine BOSS-strength hits, one ELITE-strength
hit, then a final BOSS-strength hit landing on 5 hp. -/
def lethalChain : List ℚ := [10, 10, 10, 10, 10, 10, 10, 10, 10, 5, 10]

/-- The stats the lethal chain leaves behind. -/
def negativeHpStats : PlayerStats := lethalChain.foldl takeDamage initialStats

/-- GAME_WIDTH constant (GameArena.tsx line 18). -/
def GAME_WIDTH : ℚ := 1920

/-- GAME_HEIGHT constant (GameArena.tsx line 19). -/
def GAME_HEIGHT : ℚ := 1080

/-- Category argument of spawnEntity (GameArena.tsx line 470). -/
inductive SpawnCat where
  | MOB
  | ELITE
  | BOSS
deriving DecidableEq, Repr

/-- spawnEntity (GameArena.tsx lines 470-499): pick an edge-outside
position from the random side roll and a coordinate roll (one roll
parameter stands for the per-branch Math.random() call), promote half of
the ELITEs to ELITE_RANGED via a further roll, then apply the per-category
size, hp, maxHp and damage overrides (the MOB branch re-asserts hp 2 and
maxHp 2 of the base record). -/
def spawnEntity (category : SpawnCat) (side : Fin 4) (rpos rRanged : ℚ) : Entity :=
  let x : ℚ :=
    if side = 0 then rpos * GAME_WIDTH
    else if side = 1 then GAME_WIDTH + 100
    else if side = 2 then rpos * GAME_WIDTH
    else -100
  let y : ℚ :=
    if side = 0 then -100
    else if side = 1 then rpos * GAME_HEIGHT
    else if side = 2 then GAME_HEIGHT + 100
    else rpos * GAME_HEIGHT
  let etype : EnemyType :=
    if category = .ELITE ∧ 1 / 2 < rRanged then .ELITE_RANGED
    else
      match category with
      | .MOB => .MOB
      | .ELITE => .ELITE
      | .BOSS => .BOSS
  match category with
  | .BOSS =>
      { x := x, y := y, vx := 0, vy := 0, etype := etype,
        width := 250, height := 250, hp := 1000, maxHp := 1000, damage := 10 }
  | .ELITE =>
      { x := x, y := y, vx := 0, vy := 0, etype := etype,
        width := 90, height := 90, hp := 40, maxHp := 40, damage := 5 }
  | .MOB =>
      { x := x, y := y, vx := 0, vy := 0, etype := etype,
        width := 50, height := 50, hp := 2, maxHp := 2, damage := 1 }

/-- One projectile hit on an enemy (GameArena.tsx line 387):
enemy.hp -= p.damage, with no clamping. -/
def enemyHit (e : Entity) (d : ℚ) : Entity := { e with hp := e.hp - d }

/-- The enemy death filter (GameArena.tsx lines 403-424): an enemy with
hp at or below 0 is removed (returning false after the kill bookkeeping),
so the array kept for the next frame holds exactly the enemies with
positive hp. -/
def deathFilterSurvivors (es : List Entity) : List Entity :=
  es.filter (fun e => !decide (e.hp ≤ 0))

/-- An enemy entity as it can exist in enemiesRef: created by spawnEntity
and thereafter mutated only by projectile hits, whose damage is the value
of statsRef.current.damage at fire time (a reachable stats state). -/
inductive ReachableEnemy : Entity → Prop where
  | spawned (category : SpawnCat) (side : Fin 4) (rpos rRanged : ℚ) :
      ReachableEnemy (spawnEntity category side rpos rRanged)
  | hit {e : Entity} (he : ReachableEnemy e) (s : PlayerStats)
      (hs : ReachableStats s) : ReachableEnemy (enemyHit e s.damage)

/-- A sample vocabulary word. -/
def wordA : WordData := { word := "apple" }

/-- Another sample vocabulary word. -/
def wordB : WordData := { word := "banana" }

/-- A leveling state one xp short of the threshold with two pending
challenges. -/
def c3State : LevelUpState :=
  { stats := { initialStats with xp := 9 },
    remainingWords := [wordA, wordB],
    quizWord := none, showUpgrades := false, paused := false }

/-- A spawn state just after the queue drained: frame 1 of a fresh second,
which is not a multiple of the current 100-tick spawn interval. -/
def c7State : SpawnState :=
  { gameTime := 0, frameCount := 1, remainingWords := [],
    bossSpawned := false, quizWord := none, level := 1 }

/-- A spawn state whose boss has already been spawned. -/
def bossDoneState : SpawnState :=
  { gameTime := 5, frameCount := 300, remainingWords := [],
    bossSpawned := true, quizWord := none, level := 2 }

/-- One sample environment tick for a spawn run. -/
def envSample : EnvInput :=
  { gameTime := 5, frameCount := 300, remainingWords := [],
    quizWord := none, level := 2, roll := 1 / 2 }

/-- The kill sequence of the C8 scenario: five MOBs, then the BOSS. -/
def c8KillSequence : List EnemyType :=
  [.MOB, .MOB, .MOB, .MOB, .MOB, .BOSS]

/-- The HERO entity as initialized in playerRef (GameArena.tsx lines
53-60), at the arena center. -/
def heroEntity : Entity :=
  { x := 960, y := 540, width := 64, height := 64, etype := .HERO,
    vx := 0, vy := 0, hp := 100, maxHp := 100, damage := 10 }

/-- A MOB overlapping the hero (center distance 10, radii sum 57). -/
def touchingMob : Entity :=
  { x := 970, y := 540, width := 50, height := 50, etype := .MOB,
    vx := 0, vy := 0, hp := 2, maxHp := 2, damage := 1 }

/-- A player projectile at the origin (width 14, damage 10, as fired by
fireBullet with the initial stats). -/
def projSample : Entity :=
  { x := 0, y := 0, width := 14, height := 14, etype := .PROJECTILE,
    vx := 0, vy := 0, hp := 1, maxHp := 1, damage := 10 }

/-- A MOB 30 units from the projectile, first in the enemy array. -/
def enemyFirst : Entity :=
  { x := 30, y := 0, width := 50, height := 50, etype := .MOB,
    vx := 0, vy := 0, hp := 2, maxHp := 2, damage := 1 }

/-- A MOB only 10 units from the projectile, second in the enemy array. -/
def enemyNearest : Entity :=
  { x := 10, y := 0, width := 50, height := 50, etype := .MOB,
    vx := 0, vy := 0, hp := 2, maxHp := 2, damage := 1 }

/-! Theorems.  Shared helper lemmas come first, then one theorem per
claim together with its witness or counterexample. -/

/-- Helper: every single upgrade application keeps the firing interval at
or above 5 ticks, thanks to the Math.max(5, _) in the atk_spd option. -/
lemma applyUpgrade_attackSpeed_lb (u : UpgradeId) (s : PlayerStats)
    (h : 5 ≤ s.attackSpeed) : 5 ≤ (applyUpgrade u s).attackSpeed := by
  cases u <;> simp [applyUpgrade, applyUpgradeOption] <;> exact h

/-- Helper: the lower bound is preserved by any fold of upgrades. -/
lemma foldl_applyUpgrade_attackSpeed_lb (l : List UpgradeId) (s : PlayerStats)
    (h : 5 ≤ s.attackSpeed) :
    5 ≤ (l.foldl (fun t u => applyUpgrade u t) s).attackSpeed := by
  induction l generalizing s with
  | nil => exact h
  | cons u l ih => exact ih _ (applyUpgrade_attackSpeed_lb u s h)

/-- Claim C10: starting from the initial stats (attackSpeed 30), applying
any sequence of upgrade options from the static pool never drives the
firing interval attackSpeed below 5 ticks. -/
theorem c10_attackSpeed_never_below_five (l : List UpgradeId) :
    5 ≤ (l.foldl (fun t u => applyUpgrade u t) initialStats).attackSpeed :=
  foldl_applyUpgrade_attackSpeed_lb l initialStats (by norm_num [initialStats])

/-- Claim C9: an incorrect quiz answer changes only the xp field (reset to
0) and the xpToNextLevel field (raised by 2) of PlayerStats; level, hp,
maxHp, speed, damage, attackSpeed, projectileSpeed, pickupRange and
projectileCount are unchanged, and no upgrade menu is opened. -/
theorem c9_quiz_incorrect_frame_effect (g : LevelUpState) :
    (handleQuizResult g false).stats.xp = 0 ∧
    (handleQuizResult g false).stats.xpToNextLevel = g.stats.xpToNextLevel + 2 ∧
    (handleQuizResult g false).stats.level = g.stats.level ∧
    (handleQuizResult g false).stats.hp = g.stats.hp ∧
    (handleQuizResult g false).stats.maxHp = g.stats.maxHp ∧
    (handleQuizResult g false).stats.speed = g.stats.speed ∧
    (handleQuizResult g false).stats.damage = g.stats.damage ∧
    (handleQuizResult g false).stats.attackSpeed = g.stats.attackSpeed ∧
    (handleQuizResult g false).stats.projectileSpeed = g.stats.projectileSpeed ∧
    (handleQuizResult g false).stats.pickupRange = g.stats.pickupRange ∧
    (handleQuizResult g false).stats.projectileCount = g.stats.projectileCount ∧
    (handleQuizResult g false).showUpgrades = g.showUpgrades := by
  simp [handleQuizResult, quizFailStats]

/-- Claim C8: with an empty challenge queue, killing five MOBs and then
the BOSS ends the session as VICTORY with score 105, the weighted sum of
the kill counters at weights 1 per MOB, 10 per ELITE and 100 per BOSS. -/
theorem c8_five_mobs_then_boss_scores_105 :
    (processKills (initialKills, GameResult.PLAYING) c8KillSequence).2 =
      GameResult.VICTORY ∧
    (processKills (initialKills, GameResult.PLAYING) c8KillSequence).1 =
      { mobs := 5, elites := 0, bosses := 1 } ∧
    calculateScore (processKills (initialKills, GameResult.PLAYING) c8KillSequence).1 =
      105 := by
  refine ⟨?_, ?_, ?_⟩ <;> decide

/-- Claim C4: melee contact damage fires only on ticks where the global
frame counter is a multiple of the 30-tick cooldown, so within any window
of 30 consecutive ticks two contact-damage events must coincide (at most
one application per window, never one on every tick of overlap); the test
uses only the global counter, not a per-enemy-pair timer. -/
theorem c4_contact_damage_cooldown :
    (∀ (f : ℕ) (p e : Entity), contactDamageFires f p e = true →
       f % CONTACT_COOLDOWN = 0) ∧
    (∀ (f1 f2 : ℕ) (p1 e1 p2 e2 : Entity),
       contactDamageFires f1 p1 e1 = true → contactDamageFires f2 p2 e2 = true →
       f1 ≤ f2 → f2 < f1 + CONTACT_COOLDOWN → f2 = f1) := by
  constructor
  · intro f p e h
    simp [contactDamageFires] at h
    exact h.2
  · intro f1 f2 p1 e1 p2 e2 h1 h2 hle hlt
    simp [contactDamageFires] at h1 h2
    have m1 := h1.2
    have m2 := h2.2
    simp [CONTACT_COOLDOWN] at m1 m2 hlt
    omega

/-- Witness for C4 at frame 30 with the hero and a touching MOB. -/
theorem c4_contact_damage_cooldown_witness :
    contactDamageFires 30 heroEntity touchingMob = true ∧
    30 % CONTACT_COOLDOWN = 0 := by
  have h : contactDamageFires 30 heroEntity touchingMob = true := by
    simp [contactDamageFires, circlesOverlap, distSq, heroEntity, touchingMob,
      CONTACT_COOLDOWN]
    norm_num
  exact ⟨h, c4_contact_damage_cooldown.1 30 heroEntity touchingMob h⟩

/-- Helper: one spawnEnemies invocation creates a BOSS exactly under the
guard (queue drained, flag clear, no quiz open); a boss spawn sets the
flag, any other outcome leaves the state untouched. -/
lemma spawnTick_boss_characterization (st : SpawnState) (r : ℚ) :
    ((spawnTick st r).1 = SpawnKind.boss ↔
      (st.remainingWords.length = 0 ∧ st.bossSpawned = false ∧
        st.quizWord = none)) ∧
    ((spawnTick st r).1 = SpawnKind.boss →
      (spawnTick st r).2.bossSpawned = true) ∧
    ((spawnTick st r).1 ≠ SpawnKind.boss → (spawnTick st r).2 = st) := by
  unfold spawnTick
  split_ifs with h1 h2 h3 <;> simp_all

/-- Helper: once the boss flag is set, a whole run of spawn ticks creates
no boss, whatever the environment does. -/
lemma runBossSpawns_of_flag (inputs : List EnvInput) (st : SpawnState)
    (h : st.bossSpawned = true) : runBossSpawns st inputs = 0 := by
  induction inputs generalizing st with
  | nil => rfl
  | cons e rest ih =>
      have henv : (envUpdate st e).bossSpawned = true := h
      have hchar := spawnTick_boss_characterization (envUpdate st e) e.roll
      have hnot : (spawnTick (envUpdate st e) e.roll).1 ≠ SpawnKind.boss := by
        intro hb
        have := (hchar.1.mp hb).2.1
        rw [henv] at this
        exact absurd this (by simp)
      have hpres : (spawnTick (envUpdate st e) e.roll).2.bossSpawned = true := by
        rw [hchar.2.2 hnot]
        exact henv
      simp [runBossSpawns, hnot, ih _ hpres]

/-- Claim C1: the BOSS is spawned at most once per session: any run of
spawn ticks creates at most one BOSS, none at all once the boss flag is
set, and a single tick creates a BOSS exactly when the challenge queue is
empty, no boss has been spawned yet and no quiz is open, at which point
the flag is set. -/
theorem c1_boss_spawned_exactly_once (st : SpawnState) (inputs : List EnvInput) :
    runBossSpawns st inputs ≤ 1 ∧
    (st.bossSpawned = true → runBossSpawns st inputs = 0) ∧
    (∀ r : ℚ, (spawnTick st r).1 = SpawnKind.boss ↔
      (st.remainingWords.length = 0 ∧ st.bossSpawned = false ∧
        st.quizWord = none)) ∧
    (∀ r : ℚ, (spawnTick st r).1 = SpawnKind.boss →
      (spawnTick st r).2.bossSpawned = true) := by
  refine ⟨?_, runBossSpawns_of_flag inputs st, ?_, ?_⟩
  · induction inputs generalizing st with
    | nil => simp [runBossSpawns]
    | cons e rest ih =>
        have hchar := spawnTick_boss_characterization (envUpdate st e) e.roll
        by_cases hb : (spawnTick (envUpdate st e) e.roll).1 = SpawnKind.boss
        · have hflag := hchar.2.1 hb
          simp [runBossSpawns, hb, runBossSpawns_of_flag rest _ hflag]
        · simp only [runBossSpawns, if_neg hb]
          simpa using ih _
  · intro r
    exact (spawnTick_boss_characterization st r).1
  · intro r
    exact (spawnTick_boss_characterization st r).2.1

/-- Witness for C1: with the flag already set, a sample run spawns zero
bosses. -/
theorem c1_boss_spawned_exactly_once_witness :
    bossDoneState.bossSpawned = true ∧
    runBossSpawns bossDoneState [envSample, envSample] = 0 :=
  ⟨rfl, (c1_boss_spawned_exactly_once bossDoneState [envSample, envSample]).2.1 rfl⟩

/-- Counterexample to C7: in a state whose challenge queue has just
drained but whose frame count is not on the spawn-interval schedule, the
code still spawns the BOSS immediately, so the boss does not wait for the
next regular enemy spawn slot. -/
theorem c7_counterexample_boss_off_schedule :
    (spawnTick c7State 0).1 = SpawnKind.boss ∧
    c7State.frameCount % spawnRate c7State.gameTime ≠ 0 := by
  constructor
  · decide
  · decide

/-- Claim C7 as amended: once the challenge queue is drained (and no quiz
is open and no boss exists yet), the very next spawnEnemies invocation
spawns the BOSS and returns early, bypassing the spawn-interval schedule
and skipping that tick's regular spawn check. -/
theorem c7_boss_spawns_immediately (st : SpawnState) (r : ℚ)
    (h0 : st.remainingWords.length = 0) (h1 : st.bossSpawned = false)
    (h2 : st.quizWord = none) :
    spawnTick st r = (SpawnKind.boss, { st with bossSpawned := true }) := by
  unfold spawnTick
  rw [if_pos ⟨h0, h1, h2⟩]

/-- Witness for C7 amended at the concrete off-schedule state. -/
theorem c7_boss_spawns_immediately_witness :
    (c7State.remainingWords.length = 0 ∧ c7State.bossSpawned = false ∧
      c7State.quizWord = none) ∧
    spawnTick c7State 0 = (SpawnKind.boss, { c7State with bossSpawned := true }) :=
  ⟨⟨rfl, rfl, rfl⟩, c7_boss_spawns_immediately c7State 0 rfl rfl rfl⟩

/-- Counterexample to C3: from xp 9 with threshold 10 and two pending
challenges, collecting two gems on one tick dequeues BOTH challenges
(xp is not reset by the trigger, so the second gem crosses the unchanged
threshold again), and the survivor quiz word is the second pop, so the
first dequeued challenge is silently discarded. -/
theorem c3_counterexample_double_dequeue :
    c3State.remainingWords.length = 2 ∧
    (collectGems c3State 2).remainingWords.length = 0 ∧
    (collectGems c3State 2).quizWord = some wordA := by
  refine ⟨rfl, ?_, ?_⟩ <;> decide

/-- Claim C3 as amended: a gainXp call that brings xp to the threshold
triggers exactly one pause-and-gate event, with the queue-dependent
dichotomy made explicit by full record equalities: if the queue is
non-empty exactly its last word is dequeued and surfaced as the quiz
(upgrade flag untouched), and if the queue is empty only the upgrade menu
opens (quiz untouched); a call below the threshold changes nothing but
xp, and any single call dequeues at most one challenge.  Because xp is
not reset by the trigger, several gems collected on the same tick each
re-cross the threshold and can dequeue several challenges, the later
overwriting the pending quiz of the earlier. -/
theorem c3_gate_per_gainXp (g : LevelUpState) (amount : ℕ) :
    (g.stats.xpToNextLevel ≤ g.stats.xp + amount →
      (∀ w : WordData, g.remainingWords.getLast? = some w →
        gainXp g amount =
          { stats := { g.stats with xp := g.stats.xp + amount },
            remainingWords := g.remainingWords.dropLast,
            quizWord := some w,
            showUpgrades := g.showUpgrades,
            paused := true }) ∧
      (g.remainingWords = [] →
        gainXp g amount =
          { stats := { g.stats with xp := g.stats.xp + amount },
            remainingWords := g.remainingWords,
            quizWord := g.quizWord,
            showUpgrades := true,
            paused := true })) ∧
    (g.stats.xp + amount < g.stats.xpToNextLevel →
      gainXp g amount = { g with stats := { g.stats with xp := g.stats.xp + amount } }) ∧
    g.remainingWords.length - (gainXp g amount).remainingWords.length ≤ 1 := by
  by_cases hc : g.stats.xpToNextLevel ≤ g.stats.xp + amount
  · refine ⟨fun _ => ⟨?_, ?_⟩, fun hlt => absurd hc (not_le.mpr hlt), ?_⟩
    · intro w hw
      unfold gainXp
      rw [if_pos hc]
      unfold triggerLevelUp
      simp [hw]
    · intro hnil
      unfold gainXp
      rw [if_pos hc]
      unfold triggerLevelUp showUpgradeMenu
      simp [hnil]
    · unfold gainXp
      rw [if_pos hc]
      unfold triggerLevelUp
      rcases hw : g.remainingWords.getLast? with _ | w
      · simp [hw, showUpgradeMenu]
      · simp [hw, List.length_dropLast]
        omega
  · refine ⟨fun hge => absurd hge hc, fun _ => ?_, ?_⟩ <;>
      simp [gainXp, if_neg hc]

/-- Witness for C3 amended: one gem from xp 9 reaches the threshold and
dequeues exactly the last pending word as the quiz. -/
theorem c3_gate_per_gainXp_witness :
    c3State.stats.xpToNextLevel ≤ c3State.stats.xp + 1 ∧
    c3State.remainingWords.getLast? = some wordB ∧
    gainXp c3State 1 =
      { stats := { c3State.stats with xp := c3State.stats.xp + 1 },
        remainingWords := c3State.remainingWords.dropLast,
        quizWord := some wordB,
        showUpgrades := c3State.showUpgrades,
        paused := true } :=
  ⟨by decide, by decide,
    ((c3_gate_per_gainXp c3State 1).1 (by decide)).1 wordB (by decide)⟩

/-- Helper: a chain of in-range enemy hits stays inside the reachable
stats (takeDamage is unguarded in the source, so no positivity side
condition is needed). -/
lemma reachable_after_damage_chain (ds : List ℚ) (s : PlayerStats)
    (hs : ReachableStats s) (hmem : ∀ d ∈ ds, d ∈ enemyDamageValues) :
    ReachableStats (ds.foldl takeDamage s) := by
  induction ds generalizing s with
  | nil => simpa using hs
  | cons d ds ih =>
      rw [List.foldl_cons]
      exact ih (takeDamage s d)
        (hs.step (.damage s d (hmem d (List.mem_cons_self d ds))))
        (fun x hx => hmem x (List.mem_cons_of_mem d hx))

/-- Counterexample to C2: a reachable frame (after nine boss-strength
hits, one elite-strength hit and a final boss-strength hit on 5 hp) has
player hp equal to -5: takeDamage does not clamp hp at zero. -/
theorem c2_counterexample_negative_hp :
    ReachableStats negativeHpStats ∧ negativeHpStats.hp < 0 := by
  constructor
  · refine reachable_after_damage_chain lethalChain initialStats .init ?_
    intro d hd
    simp only [lethalChain, List.mem_cons, List.not_mem_nil, or_false] at hd
    rcases hd with h | h | h | h | h | h | h | h | h | h | h <;>
      simp [h, enemyDamageValues]
  · norm_num [negativeHpStats, lethalChain, takeDamage, initialStats]

/-- Helper: every reachable player-stats state keeps hp at or below
maxHp. -/
lemma reachableStats_hp_le_maxHp (s : PlayerStats) (h : ReachableStats s) :
    s.hp ≤ s.maxHp := by
  induction h with
  | init => norm_num [initialStats]
  | step hr hstep ih =>
      cases hstep with
      | damage d hd =>
          have hd0 : 0 ≤ d := by
            simp only [enemyDamageValues, List.mem_cons, List.not_mem_nil,
              or_false] at hd
            rcases hd with h | h | h <;> norm_num [h]
          simp only [takeDamage]
          exact le_trans (by linarith) ih
      | upgrade u =>
          cases u <;> simp [applyUpgrade, applyUpgradeOption] <;> linarith
      | quizFail => simpa [quizFailStats] using ih
      | xpGain => simpa using ih

/-- Helper: every reachable player-stats state has nonnegative damage
(dmg_up only applies a ceiling of a nonnegative product). -/
lemma reachableStats_damage_nonneg (s : PlayerStats) (h : ReachableStats s) :
    0 ≤ s.damage := by
  induction h with
  | init => norm_num [initialStats]
  | step hr hstep ih =>
      cases hstep with
      | damage d hd => simpa [takeDamage] using ih
      | upgrade u =>
          cases u <;> simp [applyUpgrade, applyUpgradeOption] <;> try exact ih
          exact_mod_cast Int.ceil_nonneg (mul_nonneg ih (by norm_num))
      | quizFail => simpa [quizFailStats] using ih
      | xpGain => simpa using ih

/-- Claim C2 as amended: hp never exceeds maxHp for the player's stats in
any reachable state and for any enemy across its spawn-then-hits
lifecycle, and every enemy kept by the end-of-tick death filter has
strictly positive hp; the claimed lower bound 0 ≤ hp is what the
counterexample refutes (the player's lethal hit is not clamped, and a
dead enemy's hp is negative between the hit and that tick's filter). -/
theorem c2_hp_bounds :
    (∀ s : PlayerStats, ReachableStats s → s.hp ≤ s.maxHp) ∧
    (∀ e : Entity, ReachableEnemy e → e.hp ≤ e.maxHp) ∧
    (∀ (es : List Entity) (e : Entity), e ∈ deathFilterSurvivors es → 0 < e.hp) := by
  refine ⟨reachableStats_hp_le_maxHp, ?_, ?_⟩
  · intro e h
    induction h with
    | spawned category side rpos rRanged =>
        cases category <;> norm_num [spawnEntity]
    | hit he s hs ih =>
        have hd := reachableStats_damage_nonneg s hs
        simp only [enemyHit]
        exact le_trans (by linarith) ih
  · intro es e h
    have hmem := (List.mem_filter.mp h).2
    have : ¬(e.hp ≤ 0) := by simpa using hmem
    exact not_le.mp this

/-- Witness for C2 amended: the initial stats, a fresh BOSS, and a MOB
surviving the death filter. -/
theorem c2_hp_bounds_witness :
    initialStats.hp ≤ initialStats.maxHp ∧
    (spawnEntity SpawnCat.BOSS 0 0 0).hp ≤ (spawnEntity SpawnCat.BOSS 0 0 0).maxHp ∧
    0 < touchingMob.hp :=
  ⟨c2_hp_bounds.1 initialStats ReachableStats.init,
   c2_hp_bounds.2.1 _ (ReachableEnemy.spawned SpawnCat.BOSS 0 0 0),
   c2_hp_bounds.2.2 [touchingMob] touchingMob
     (List.mem_filter.mpr ⟨by simp, by norm_num [touchingMob]⟩)⟩

/-- Counterexample to C6: both MOBs are inside the projectile's collision
radius and the second is strictly closer, yet the loop damages the first
one in array order and leaves the nearest untouched. -/
theorem c6_counterexample_first_not_nearest :
    projHitsTarget projSample.x projSample.y enemyFirst = true ∧
    projHitsTarget projSample.x projSample.y enemyNearest = true ∧
    distSq projSample.x projSample.y enemyNearest.x enemyNearest.y <
      distSq projSample.x projSample.y enemyFirst.x enemyFirst.y ∧
    damageFirstHit projSample [enemyFirst, enemyNearest] =
      [{ enemyFirst with hp := enemyFirst.hp - projSample.damage }, enemyNearest] := by
  refine ⟨?_, ?_, ?_, ?_⟩ <;>
    norm_num [projHitsTarget, distSq, projSample, enemyFirst, enemyNearest,
      damageFirstHit]

/-- Claim C6 as amended: a player projectile within collision radius of at
least one enemy damages the FIRST in-radius enemy in array order (not
necessarily the nearest), and exactly that one enemy; an enemy projectile
leaves the enemy array untouched and its hit test depends only on the
player. -/
theorem c6_first_hit_semantics :
    (∀ (p : Entity) (es : List Entity) (e : Entity),
      findHitEnemy p es = some e →
      ∃ pre post, es = pre ++ e :: post ∧
        (∀ x ∈ pre, projHitsTarget p.x p.y x = false) ∧
        projHitsTarget p.x p.y e = true ∧
        damageFirstHit p es = pre ++ { e with hp := e.hp - p.damage } :: post) ∧
    (∀ (p player : Entity) (es : List Entity), p.etype = .ENEMY_PROJECTILE →
      (projectileCollide p player es).1 = es ∧
      (projectileCollide p player es).2.2 = projHitsTarget p.x p.y player) := by
  constructor
  · intro p es
    induction es with
    | nil => intro e h; simp [findHitEnemy] at h
    | cons a es ih =>
        intro e h
        by_cases ha : projHitsTarget p.x p.y a = true
        · have hea : a = e := by
            simpa [findHitEnemy, List.find?_cons_of_pos _ ha] using h
          subst hea
          exact ⟨[], es, rfl, by simp, ha, by simp [damageFirstHit, ha]⟩
        · have hfa : projHitsTarget p.x p.y a = false := by
            simpa using ha
          have h2 : findHitEnemy p es = some e := by
            have h3 := h
            simp only [findHitEnemy, List.find?_cons, hfa] at h3
            simpa [findHitEnemy] using h3
          obtain ⟨pre, post, heq, hpre, he, hdmg⟩ := ih e h2
          refine ⟨a :: pre, post, by simp [heq], ?_, he, ?_⟩
          · intro x hx
            rcases List.mem_cons.mp hx with hx | hx
            · rw [hx]; exact hfa
            · exact hpre x hx
          · simp [damageFirstHit, hfa, hdmg]
  · intro p player es hp
    have hne : ¬(p.etype = EnemyType.PROJECTILE) := by
      rw [hp]; intro hcontra; cases hcontra
    cases hb : projHitsTarget p.x p.y player <;>
      simp [projectileCollide, hne, hb]

/-- Witness for C6 amended: the concrete two-MOB list decomposes with the
first in-radius enemy damaged. -/
theorem c6_first_hit_semantics_witness :
    findHitEnemy projSample [enemyFirst, enemyNearest] = some enemyFirst ∧
    ∃ pre post,
      [enemyFirst, enemyNearest] = pre ++ enemyFirst :: post ∧
      (∀ x ∈ pre, projHitsTarget projSample.x projSample.y x = false) ∧
      projHitsTarget projSample.x projSample.y enemyFirst = true ∧
      damageFirstHit projSample [enemyFirst, enemyNearest] =
        pre ++ { enemyFirst with hp := enemyFirst.hp - projSample.damage } :: post := by
  have hfind : findHitEnemy projSample [enemyFirst, enemyNearest] = some enemyFirst := by
    norm_num [findHitEnemy, List.find?, projHitsTarget, distSq, projSample,
      enemyFirst]
  exact ⟨hfind,
    c6_first_hit_semantics.1 projSample [enemyFirst, enemyNearest] enemyFirst hfind⟩

/-- Claim C5: for a non-zero movement input (dx, dy) and nonnegative
speed, the per-tick displacement magnitude (before boundary clamping) is
min(1, length of the input) times speed: it equals speed exactly when the
input is longer than 1, equals input length times speed for sub-unit
inputs, and is always at most speed. -/
theorem c5_displacement_normalized (dx dy speed : ℝ)
    (_hne : ¬(dx = 0 ∧ dy = 0)) (hsp : 0 ≤ speed) :
    displacementMagnitude dx dy speed = min 1 (inputLength dx dy) * speed ∧
    (inputLength dx dy ≤ 1 →
      displacementMagnitude dx dy speed = inputLength dx dy * speed) ∧
    (1 < inputLength dx dy → displacementMagnitude dx dy speed = speed) ∧
    displacementMagnitude dx dy speed ≤ speed := by
  have hL0 : 0 ≤ inputLength dx dy := Real.sqrt_nonneg _
  have hL2 : inputLength dx dy ^ 2 = dx * dx + dy * dy := by
    rw [inputLength]
    exact Real.sq_sqrt (add_nonneg (mul_self_nonneg dx) (mul_self_nonneg dy))
  have hf0 : 0 ≤ normalizedFactor dx dy := by
    rw [normalizedFactor]
    split
    · exact div_nonneg zero_le_one hL0
    · exact zero_le_one
  have hmag : displacementMagnitude dx dy speed =
      inputLength dx dy * normalizedFactor dx dy * speed := by
    rw [displacementMagnitude, stepDisplacementX, stepDisplacementY]
    have hkey : (dx * normalizedFactor dx dy * speed) ^ 2 +
        (dy * normalizedFactor dx dy * speed) ^ 2 =
        (inputLength dx dy * normalizedFactor dx dy * speed) ^ 2 := by
      linear_combination (-(normalizedFactor dx dy ^ 2 * speed ^ 2)) * hL2
    rw [hkey]
    exact Real.sqrt_sq (mul_nonneg (mul_nonneg hL0 hf0) hsp)
  have hmain : displacementMagnitude dx dy speed =
      min 1 (inputLength dx dy) * speed := by
    rw [hmag]
    by_cases h1 : 1 < inputLength dx dy
    · have hLne : inputLength dx dy ≠ 0 := ne_of_gt (lt_trans zero_lt_one h1)
      rw [normalizedFactor, if_pos h1, min_eq_left h1.le]
      field_simp
    · rw [normalizedFactor, if_neg h1, min_eq_right (not_lt.mp h1)]
      ring
  refine ⟨hmain, fun h => ?_, fun h => ?_, ?_⟩
  · rw [hmain, min_eq_right h]
  · rw [hmain, min_eq_left h.le, one_mul]
  · rw [hmain]
    calc min 1 (inputLength dx dy) * speed ≤ 1 * speed :=
          mul_le_mul_of_nonneg_right (min_le_left _ _) hsp
      _ = speed := one_mul speed

/-- Witness for C5 at input (3, 4) with speed 2. -/
theorem c5_displacement_normalized_witness :
    (¬((3 : ℝ) = 0 ∧ (4 : ℝ) = 0)) ∧ (0 : ℝ) ≤ 2 ∧
    displacementMagnitude 3 4 2 = min 1 (inputLength 3 4) * 2 :=
  ⟨by norm_num, by norm_num,
    (c5_displacement_normalized 3 4 2 (by norm_num) (by norm_num)).1⟩

end WeeklyEnglish
